import Mathlib

/-!
Shallow embedding of `pkmoran/go-weather` (src/main.go).

Temperatures are Go `float64` values; we model them as exact rationals `ℚ`
(the claims under study are about the exact arithmetic the code performs).
An outbound HTTP call is modelled by a `FetchResult`: either a transport
error (the non-nil `err` from `http.Get`) or a response carrying a status
code and a body.  A body is `none` when it is not syntactically valid JSON
(so `json.Decoder.Decode` fails at the syntax level) and `some j` when it
parses to the JSON value `j`.  The `encoding/json` behaviour the code relies
on is embedded per target struct: missing object keys leave the field at its
zero value, JSON `null` leaves the target at its zero value, and a type
mismatch is a decode error.  Go matches object keys to struct fields/tags
preferring an exact match and falling back to a case-insensitive match.

Concurrency: each provider goroutine deposits exactly one outcome (a
temperature on `temps` or an error on `errs`, both of capacity `len(w)`),
and the aggregator `select` loop consumes one outcome per iteration in
the order they are received.  We therefore model one run of
`multiWeatherProvider.temperature` by the list of per-provider outcomes in
the order the select loop receives them (`arrivals`); a run with all
providers succeeding corresponds to `arrivals` being some permutation of
the list of per-provider results.
-/

namespace GoWeather

/-- A JSON value, the result of parsing a response body. -/
inductive Json where
  | null
  | bool (b : Bool)
  | num (q : ℚ)
  | str (s : String)
  | arr (elems : List Json)
  | obj (fields : List (String × Json))

/-- ASCII lower-casing of one character (all the keys involved are
ASCII). -/
def lowerChar (c : Char) : Char :=
  if c.toNat < 65 ∨ 90 < c.toNat then c else Char.ofNat (c.toNat + 32)

/-- Case-insensitive comparison of two character sequences. -/
def eqFoldChars : List Char → List Char → Bool
  | [], [] => true
  | c :: cs, d :: ds => lowerChar c == lowerChar d && eqFoldChars cs ds
  | _, _ => false

/-- Go key matching for `encoding/json`: an exact match, or a
case-insensitive one. -/
def keyMatches (name key : String) : Bool :=
  name == key || eqFoldChars name.data key.data

/-- Look a field name up in a decoded JSON object, with Go
exact-then-case-insensitive matching. -/
def jlookup (name : String) : List (String × Json) → Option Json
  | [] => none
  | (k, v) :: rest => if keyMatches name k then some v else jlookup name rest

/-- Decoding a JSON value into a Go `float64` field: numbers decode, `null`
leaves the zero value, anything else is a type error. -/
def decodeFloat : Json → Except String ℚ
  | .num q => .ok q
  | .null => .ok 0
  | _ => .error "json: cannot unmarshal value into float64"

/-- The inner struct of decode target of openWeatherMap:
`struct { Kelvin float64 `json:"temp"` }` (src/main.go:78-80). -/
structure OwmMain where
  kelvin : ℚ
deriving DecidableEq

/-- decode target of openWeatherMap: `struct { Main ... `json:"main"` }`
(src/main.go:77-81). -/
structure OwmData where
  main : OwmMain
deriving DecidableEq

/-- Decode the `main` object (field `temp`, zero-valued when absent). -/
def decodeOwmMain : Json → Except String OwmMain
  | .null => .ok ⟨0⟩
  | .obj fields =>
    match jlookup "temp" fields with
    | none => .ok ⟨0⟩
    | some v => (decodeFloat v).map OwmMain.mk
  | _ => .error "json: cannot unmarshal value into main"

/-- Decode the openWeatherMap response shape (field `main`, zero-valued when
absent). -/
def decodeOwm : Json → Except String OwmData
  | .null => .ok ⟨⟨0⟩⟩
  | .obj fields =>
    match jlookup "main" fields with
    | none => .ok ⟨⟨0⟩⟩
    | some v => (decodeOwmMain v).map OwmData.mk
  | _ => .error "json: cannot unmarshal value into body"

/-- The inner struct of decode target of weatherUnderground:
`struct { Celsius float64 `json:"temp_c"` }` (src/main.go:100-102). -/
structure WuObs where
  celsius : ℚ
deriving DecidableEq

/-- decode target of weatherUnderground:
`struct { Observation ... `json:"current_observation"` }`
(src/main.go:99-103). -/
structure WuData where
  observation : WuObs
deriving DecidableEq

/-- Decode the `current_observation` object (field `temp_c`). -/
def decodeWuObs : Json → Except String WuObs
  | .null => .ok ⟨0⟩
  | .obj fields =>
    match jlookup "temp_c" fields with
    | none => .ok ⟨0⟩
    | some v => (decodeFloat v).map WuObs.mk
  | _ => .error "json: cannot unmarshal value into current_observation"

/-- Decode the weatherUnderground response shape. -/
def decodeWu : Json → Except String WuData
  | .null => .ok ⟨⟨0⟩⟩
  | .obj fields =>
    match jlookup "current_observation" fields with
    | none => .ok ⟨⟨0⟩⟩
    | some v => (decodeWuObs v).map WuData.mk
  | _ => .error "json: cannot unmarshal value into body"

/-- The inner struct of decode target of darkSky:
`struct { Temperature float64 }` (src/main.go:131-133); the untagged field
name `Temperature` matches the upstream key `temperature`
case-insensitively. -/
structure DsCurrently where
  temp : ℚ
deriving DecidableEq

/-- decode target of darkSky: `struct { Currently ... }`
(src/main.go:130-134). -/
structure DsData where
  currently : DsCurrently
deriving DecidableEq

/-- Decode the `Currently` object (field `Temperature`). -/
def decodeDsCurrently : Json → Except String DsCurrently
  | .null => .ok ⟨0⟩
  | .obj fields =>
    match jlookup "Temperature" fields with
    | none => .ok ⟨0⟩
    | some v => (decodeFloat v).map DsCurrently.mk
  | _ => .error "json: cannot unmarshal value into Currently"

/-- Decode the darkSky weather response shape. -/
def decodeDs : Json → Except String DsData
  | .null => .ok ⟨⟨0⟩⟩
  | .obj fields =>
    match jlookup "Currently" fields with
    | none => .ok ⟨⟨0⟩⟩
    | some v => (decodeDsCurrently v).map DsData.mk
  | _ => .error "json: cannot unmarshal value into body"

/-- Innermost geocoding struct: `struct { Lat, Lng float64 }`
(src/main.go:156-159). -/
structure GeoLocation where
  lat : ℚ
  lng : ℚ
deriving DecidableEq

/-- Geocoding geometry struct (src/main.go:155-160). -/
structure GeoGeometry where
  location : GeoLocation
deriving DecidableEq

/-- One element of the geocoding `Results` array (src/main.go:154-161). -/
structure GeoResult where
  geometry : GeoGeometry
deriving DecidableEq

/-- The geocoding decode target: `struct { Results []... }`
(src/main.go:153-162). -/
structure GeoData where
  results : List GeoResult
deriving DecidableEq

/-- Decode a `Location` object (fields `Lat`, `Lng`). -/
def decodeGeoLocation : Json → Except String GeoLocation
  | .null => .ok ⟨0, 0⟩
  | .obj fields => do
    let lat ← match jlookup "Lat" fields with
      | none => pure 0
      | some v => decodeFloat v
    let lng ← match jlookup "Lng" fields with
      | none => pure 0
      | some v => decodeFloat v
    pure ⟨lat, lng⟩
  | _ => .error "json: cannot unmarshal value into Location"

/-- Decode a `Geometry` object (field `Location`). -/
def decodeGeoGeometry : Json → Except String GeoGeometry
  | .null => .ok ⟨⟨0, 0⟩⟩
  | .obj fields =>
    match jlookup "Location" fields with
    | none => .ok ⟨⟨0, 0⟩⟩
    | some v => (decodeGeoLocation v).map GeoGeometry.mk
  | _ => .error "json: cannot unmarshal value into Geometry"

/-- Decode one element of the `Results` array. -/
def decodeGeoResult : Json → Except String GeoResult
  | .null => .ok ⟨⟨⟨0, 0⟩⟩⟩
  | .obj fields =>
    match jlookup "Geometry" fields with
    | none => .ok ⟨⟨⟨0, 0⟩⟩⟩
    | some v => (decodeGeoGeometry v).map GeoResult.mk
  | _ => .error "json: cannot unmarshal value into Results element"

/-- Decode the `Results` array: a JSON array decoded elementwise, `null`
giving the zero value (an empty slice). -/
def decodeGeoResults : Json → Except String (List GeoResult)
  | .null => .ok []
  | .arr elems => elems.mapM decodeGeoResult
  | _ => .error "json: cannot unmarshal value into Results"

/-- Decode the geocoding response shape (field `Results`). -/
def decodeGeo : Json → Except String GeoData
  | .null => .ok ⟨[]⟩
  | .obj fields =>
    match jlookup "Results" fields with
    | none => .ok ⟨[]⟩
    | some v => (decodeGeoResults v).map GeoData.mk
  | _ => .error "json: cannot unmarshal value into body"

/-- One outbound HTTP call, as seen by the caller of `http.Get`.
`failure` is a non-nil transport error (connection refused, timeout, bad
host...).  `success` is any completed HTTP exchange — note that in Go a
non-2xx status is NOT an error from `http.Get`; the status code is carried
here so that theorems can quantify over it.  The body is `none` when it is
not syntactically valid JSON. -/
inductive FetchResult where
  | failure (msg : String)
  | success (status : Nat) (body : Option Json)

/-- Error produced when `json.Decoder.Decode` meets a syntactically invalid
body. -/
def jsonSyntaxErr : String := "invalid character in JSON input"

/-- Run a body through syntax-level parsing and then a struct decoder. -/
def decodeBody {α : Type} (dec : Json → Except String α) :
    Option Json → Except String α
  | none => .error jsonSyntaxErr
  | some j => dec j

namespace openWeatherMap

/-- `openWeatherMap.temperature` (src/main.go:69-89): fetch, decode the
body, return `d.Main.Kelvin` unchanged (the upstream already reports the
canonical unit).  The response status is never inspected. -/
def temperature (r : FetchResult) : Except String ℚ :=
  match r with
  | .failure e => .error e
  | .success _ body =>
    match decodeBody decodeOwm body with
    | .error e => .error e
    | .ok d => .ok d.main.kelvin

end openWeatherMap

namespace weatherUnderground

/-- `weatherUnderground.temperature` (src/main.go:91-112): fetch, decode,
return `d.Observation.Celsius + 273.15`.  The response status is never
inspected. -/
def temperature (r : FetchResult) : Except String ℚ :=
  match r with
  | .failure e => .error e
  | .success _ body =>
    match decodeBody decodeWu body with
    | .error e => .error e
    | .ok d => .ok (d.observation.celsius + 273.15)

end weatherUnderground

namespace darkSky

/-- `darkSky.getCoords` (src/main.go:145-172): fetch the geocoding
response, decode it, then read `g.Results[0]` WITHOUT checking that
`Results` is non-empty.  The unchecked index is modelled by `List.head?`:
the `none` result is the out-of-bounds access (a runtime panic in Go). -/
def getCoords (r : FetchResult) : Option (Except String (ℚ × ℚ)) :=
  match r with
  | .failure e => some (.error e)
  | .success _ body =>
    match decodeBody decodeGeo body with
    | .error e => some (.error e)
    | .ok g =>
      match g.results.head? with
      | none => none
      | some r0 => some (.ok (r0.geometry.location.lat, r0.geometry.location.lng))

/-- `darkSky.temperature` (src/main.go:114-143): geocode the city first
(propagating its error without attempting the weather call), then fetch the
weather response and return `d.Currently.Temperature + 273.15` (the SI
upstream reports Celsius).  An `none` overall result is the panic
propagated from `getCoords`. -/
def temperature (geo wr : FetchResult) : Option (Except String ℚ) :=
  match getCoords geo with
  | none => none
  | some (.error e) => some (.error e)
  | some (.ok _) =>
    match wr with
    | .failure e => some (.error e)
    | .success _ body =>
      match decodeBody decodeDs body with
      | .error e => some (.error e)
      | .ok d => some (.ok (d.currently.temp + 273.15))

end darkSky

deriving instance DecidableEq for Except

/-- One per-provider outcome, as deposited on the `temps` / `errs`
channels: `Except.ok k` models a temperature on `temps`, `Except.error e`
an error on `errs`. -/
abbrev Outcome := Except String ℚ

/-- The collection loop shared by the two aggregation paths: consume the
outcomes one at a time in the order given, accumulating successful
temperatures into the running sum and returning immediately on the first
error.  This is the `select` loop of `multiWeatherProvider.temperature`
(src/main.go:197-204) applied to the outcomes in arrival order, and equally
the `for` loop of the sequential `temperature` (src/main.go:221-229)
applied to the outcomes in declaration order. -/
def collect : List Outcome → ℚ → Except String ℚ
  | [], sum => .ok sum
  | .ok k :: rest, sum => collect rest (sum + k)
  | .error e :: _, _ => .error e

namespace multiWeatherProvider

/-- `multiWeatherProvider.temperature` (src/main.go:174-216), as a function
of the per-provider outcomes in the order the select loop receives them
(`arrivals.length` is `len(w)`, the number of providers, since every
goroutine deposits exactly one outcome and the loop runs `len(w)` times).
On first error: return it.  Otherwise average the sum over `len(w)` and
convert Kelvin → Celsius → Fahrenheit.  There is no guard for an empty
provider set: with `len(w) = 0` the code divides `0.0` by `0.0`. -/
def temperature (arrivals : List Outcome) : Except String ℚ :=
  match collect arrivals 0 with
  | .error e => .error e
  | .ok sum =>
    let avg := sum / (arrivals.length : ℚ)
    let c := avg - 273.15
    let f := c * 1.8 + 32
    .ok f

end multiWeatherProvider

/-- The sequential legacy `temperature(city, providers...)`
(src/main.go:218-231), as a function of the per-provider outcomes in
provider declaration order: query one at a time, stop at the first error,
otherwise return `sum / float64(len(providers))` — no Fahrenheit
conversion. -/
def temperature (outcomes : List Outcome) : Except String ℚ :=
  match collect outcomes 0 with
  | .error e => .error e
  | .ok sum => .ok (sum / (outcomes.length : ℚ))

/-- The first error in a run of outcomes, in the order they are consumed. -/
def firstError : List Outcome → Option String
  | [] => none
  | .ok _ :: rest => firstError rest
  | .error e :: _ => some e

/-- The successful temperatures of a run, in order. -/
def oks : List Outcome → List ℚ
  | [] => []
  | .ok k :: rest => k :: oks rest
  | .error _ :: rest => oks rest

end GoWeather

namespace GoWeather

/-! Helper lemmas about the collection loop.  These are shared between the
claims about the concurrent aggregator and the sequential legacy path. -/

/-- Consuming an all-success run accumulates the whole sum. -/
theorem collect_map_ok (ks : List ℚ) (s : ℚ) :
    collect (ks.map Except.ok) s = Except.ok (s + ks.sum) := by
  induction ks generalizing s with
  | nil => simp [collect]
  | cons k rest ih =>
    simp only [List.map_cons, collect, ih, List.sum_cons]
    congr 1
    ring

/-- The loop stops at the first error, whatever comes after it. -/
theorem collect_append_error (ks : List ℚ) (e : String) (rest : List Outcome)
    (s : ℚ) :
    collect (ks.map Except.ok ++ Except.error e :: rest) s = Except.error e := by
  induction ks generalizing s with
  | nil => simp [collect]
  | cons k tail ih =>
    simp only [List.map_cons, List.cons_append, collect]
    exact ih (s + k)

/-- The loop returns exactly the first error of the consumed sequence. -/
theorem collect_of_firstError (l : List Outcome) (e : String)
    (h : firstError l = some e) (s : ℚ) : collect l s = Except.error e := by
  induction l generalizing s with
  | nil => simp [firstError] at h
  | cons x rest ih =>
    cases x with
    | ok k =>
      rw [firstError] at h
      simp only [collect]
      exact ih h (s + k)
    | error e2 =>
      rw [firstError] at h
      injection h with h2
      subst h2
      simp [collect]

/-- An all-success run is the image of its temperatures. -/
theorem allOk_eq_map (l : List Outcome) (h : ∀ x ∈ l, ∃ k, x = Except.ok k) :
    l = (oks l).map Except.ok := by
  induction l with
  | nil => rfl
  | cons x rest ih =>
    obtain ⟨k, hk⟩ := h x (List.mem_cons_self x rest)
    subst hk
    simp only [oks, List.map_cons]
    exact congrArg (List.cons (Except.ok k))
      (ih fun y hy => h y (List.mem_cons_of_mem _ hy))

/-- `oks` as a `filterMap`, to transport permutations through it. -/
theorem oks_eq_filterMap (l : List Outcome) :
    oks l = l.filterMap fun x =>
      match x with | .ok k => some k | .error _ => none := by
  induction l with
  | nil => rfl
  | cons x rest ih => cases x <;> simp [oks, List.filterMap_cons, ih]

/-- Mapping into successes and projecting back is the identity. -/
theorem oks_map_ok (ts : List ℚ) : oks (ts.map Except.ok) = ts := by
  induction ts with
  | nil => rfl
  | cons t rest ih => simp only [List.map_cons, oks, ih]

/-- Core fact for the concurrent aggregator: whenever the consumed arrival
order is a permutation of N successful canonical temperatures ts, the
result is the converted arithmetic mean of ts. -/
theorem mw_temperature_of_perm (ts : List ℚ) (arr : List Outcome)
    (hperm : arr.Perm (ts.map Except.ok)) :
    multiWeatherProvider.temperature arr =
      Except.ok ((ts.sum / (ts.length : ℚ) - 273.15) * 1.8 + 32) := by
  have hall : ∀ x ∈ arr, ∃ k, x = Except.ok k := by
    intro x hx
    have hx2 : x ∈ ts.map Except.ok := hperm.mem_iff.mp hx
    obtain ⟨k, _, hk⟩ := List.mem_map.mp hx2
    exact ⟨k, hk.symm⟩
  have harr := allOk_eq_map arr hall
  have hperm2 : (oks arr).Perm ts := by
    have h3 := hperm.filterMap fun x =>
      match x with | .ok k => some k | .error _ => none
    rw [← oks_eq_filterMap, ← oks_eq_filterMap, oks_map_ok] at h3
    exact h3
  have hsum : (oks arr).sum = ts.sum := hperm2.sum_eq
  have hlen : arr.length = ts.length := by
    rw [hperm.length_eq, List.length_map]
  have hc : collect arr 0 = Except.ok ts.sum := by
    rw [harr, collect_map_ok, zero_add, hsum]
  unfold multiWeatherProvider.temperature
  rw [hc, hlen]

end GoWeather

namespace GoWeather

/-- C1: for every non-empty provider set of size N whose providers all
succeed with canonical temperatures ts = t1..tN, the concurrent aggregator
`multiWeatherProvider.temperature` — run over any arrival order of the N
outcomes — returns the arithmetic mean of ts converted by
(mean - 273.15) * 1.8 + 32, and no error. -/
theorem mw_all_success_mean (ts : List ℚ) (arr : List Outcome)
    (hperm : arr.Perm (ts.map Except.ok)) (_hN : 0 < ts.length) :
    multiWeatherProvider.temperature arr =
      Except.ok ((ts.sum / (ts.length : ℚ) - 273.15) * 1.8 + 32) :=
  mw_temperature_of_perm ts arr hperm

/-- Witness for C1: a single provider returning canonical 273.15 yields
exactly 32. -/
theorem mw_all_success_mean_witness :
    multiWeatherProvider.temperature [Except.ok 273.15] = Except.ok 32 := by
  have h := mw_all_success_mean [273.15] [Except.ok 273.15]
    (List.Perm.refl _) (by decide)
  rw [h]
  norm_num

/-- C3: whenever the consumed sequence of outcomes contains an error, the
aggregator returns the first error it observes, verbatim, as its error
result (and hence no temperature value), regardless of how many other
outcomes are successes or further errors. -/
theorem mw_first_error_verbatim (arr : List Outcome) (e : String)
    (h : firstError arr = some e) :
    multiWeatherProvider.temperature arr = Except.error e := by
  unfold multiWeatherProvider.temperature
  rw [collect_of_firstError arr e h 0]

/-- Witness for C3: a slow success, then an upstream error, then another
success — the error is surfaced verbatim. -/
theorem mw_first_error_verbatim_witness :
    multiWeatherProvider.temperature
      [Except.ok 290, Except.error "wunderground: 503", Except.ok 280] =
      Except.error "wunderground: 503" :=
  mw_first_error_verbatim _ "wunderground: 503" (by rfl)

/-- C4: for a non-empty all-success run, the aggregator result is invariant
under any permutation of the arrival order of the per-provider outcomes. -/
theorem mw_arrival_order_invariant (arr1 arr2 : List Outcome)
    (hall : ∀ x ∈ arr1, ∃ k, x = Except.ok k)
    (hperm : arr1.Perm arr2) (_hN : 0 < arr1.length) :
    multiWeatherProvider.temperature arr1 =
      multiWeatherProvider.temperature arr2 := by
  have h1 : arr1.Perm ((oks arr1).map Except.ok) := by
    rw [← allOk_eq_map arr1 hall]
  have e1 := mw_temperature_of_perm (oks arr1) arr1 h1
  have e2 := mw_temperature_of_perm (oks arr1) arr2 (hperm.symm.trans h1)
  rw [e1, e2]

/-- Witness for C4: two successful providers, both arrival orders agree. -/
theorem mw_arrival_order_invariant_witness :
    multiWeatherProvider.temperature [Except.ok 280, Except.ok 300] =
      multiWeatherProvider.temperature [Except.ok 300, Except.ok 280] :=
  mw_arrival_order_invariant [Except.ok 280, Except.ok 300]
    [Except.ok 300, Except.ok 280]
    (by intro x hx
        rcases List.mem_cons.mp hx with h | h
        · exact ⟨280, h⟩
        · exact ⟨300, List.mem_singleton.mp h⟩)
    (by decide) (by decide)

/-- C5 counterexample: with three providers returning canonical 300, 310
and 290, the aggregator does NOT return 80.87. -/
theorem mw_three_providers_not_8087 :
    multiWeatherProvider.temperature
      [Except.ok 300, Except.ok 310, Except.ok 290] ≠ Except.ok 80.87 := by
  have h := mw_temperature_of_perm [300, 310, 290]
    [Except.ok 300, Except.ok 310, Except.ok 290] (List.Perm.refl _)
  rw [h]
  norm_num

/-- C5 amended: with three providers returning canonical 300, 310 and 290,
the aggregator returns (300 - 273.15) * 1.8 + 32 = 80.33. -/
theorem mw_three_providers_8033 :
    multiWeatherProvider.temperature
      [Except.ok 300, Except.ok 310, Except.ok 290] =
      Except.ok ((300 - 273.15) * 1.8 + 32) := by
  have h := mw_temperature_of_perm [300, 310, 290]
    [Except.ok 300, Except.ok 310, Except.ok 290] (List.Perm.refl _)
  rw [h]
  norm_num

/-- C2 (documenting the code bug): with an empty provider set the
aggregator does NOT fail fast: there is no guard, the loop body runs zero
times, the code divides the zero sum by zero (`0.0 / 0.0`, IEEE NaN in Go;
division by zero in this exact-arithmetic embedding), feeds the quotient
through the unit conversion, and returns it with a nil error — it never
returns an error of any kind, let alone a ConfigurationError. -/
theorem mw_empty_set_unguarded :
    multiWeatherProvider.temperature [] =
      Except.ok ((0 / 0 - 273.15) * 1.8 + 32) ∧
    ∀ e, multiWeatherProvider.temperature [] ≠ Except.error e := by
  constructor
  · unfold multiWeatherProvider.temperature
    norm_num [collect]
  · intro e
    simp [multiWeatherProvider.temperature, collect]

end GoWeather

namespace GoWeather

/-- C6 counterexample: a non-success HTTP status (here 401 with the usual
JSON error payload of the upstream) is NOT surfaced as an error:
`http.Get` reports no error for it, the status code is never inspected,
the error payload decodes with a zero-valued `main.temp`, and the provider
returns temperature 0 with no error. -/
theorem owm_nonsuccess_status_not_error :
    openWeatherMap.temperature (FetchResult.success 401
      (some (Json.obj [("cod", Json.num 401),
                       ("message", Json.str "Invalid API key")]))) =
      Except.ok 0 := by
  rfl

/-- C6 amended: each of the two single-call providers fails with the
transport error, verbatim, when the network call itself fails; fails with
the decode error, verbatim, when the response body does not decode; and in
every other case succeeds with the decoded temperature — for EVERY status
code, successful or not, since the status is never inspected.  These are
the only failure modes. -/
theorem provider_failure_modes :
    (∀ e, openWeatherMap.temperature (FetchResult.failure e) =
        Except.error e) ∧
    (∀ st body e, decodeBody decodeOwm body = Except.error e →
        openWeatherMap.temperature (FetchResult.success st body) =
          Except.error e) ∧
    (∀ st body d, decodeBody decodeOwm body = Except.ok d →
        openWeatherMap.temperature (FetchResult.success st body) =
          Except.ok d.main.kelvin) ∧
    (∀ e, weatherUnderground.temperature (FetchResult.failure e) =
        Except.error e) ∧
    (∀ st body e, decodeBody decodeWu body = Except.error e →
        weatherUnderground.temperature (FetchResult.success st body) =
          Except.error e) ∧
    (∀ st body d, decodeBody decodeWu body = Except.ok d →
        weatherUnderground.temperature (FetchResult.success st body) =
          Except.ok (d.observation.celsius + 273.15)) := by
  refine ⟨fun e => rfl, ?_, ?_, fun e => rfl, ?_, ?_⟩ <;>
    intro st body x h <;>
    simp [openWeatherMap.temperature, weatherUnderground.temperature, h]

/-- Witness for C6: a 200 response whose body decodes gives the decoded
temperature back. -/
theorem provider_failure_modes_witness :
    openWeatherMap.temperature (FetchResult.success 200
      (some (Json.obj [("main", Json.obj [("temp", Json.num 287.41)])]))) =
      Except.ok 287.41 :=
  provider_failure_modes.2.2.1 200
    (some (Json.obj [("main", Json.obj [("temp", Json.num 287.41)])]))
    ⟨⟨287.41⟩⟩ (by rfl)

/-- C7: every provider normalizes to the canonical unit before returning:
openWeatherMap (upstream already canonical/Kelvin) passes the decoded
value through unchanged, weatherUnderground (upstream Celsius) returns the
decoded value + 273.15, and darkSky (SI upstream, Celsius) returns the
decoded value + 273.15. -/
theorem providers_normalize_to_canonical :
    (∀ st j d, decodeOwm j = Except.ok d →
        openWeatherMap.temperature (FetchResult.success st (some j)) =
          Except.ok d.main.kelvin) ∧
    (∀ st j d, decodeWu j = Except.ok d →
        weatherUnderground.temperature (FetchResult.success st (some j)) =
          Except.ok (d.observation.celsius + 273.15)) ∧
    (∀ geo st j d p, darkSky.getCoords geo = some (Except.ok p) →
        decodeDs j = Except.ok d →
        darkSky.temperature geo (FetchResult.success st (some j)) =
          some (Except.ok (d.currently.temp + 273.15))) := by
  refine ⟨?_, ?_, ?_⟩
  · intro st j d h
    simp [openWeatherMap.temperature, decodeBody, h]
  · intro st j d h
    simp [weatherUnderground.temperature, decodeBody, h]
  · intro geo st j d p hgeo h
    simp [darkSky.temperature, hgeo, decodeBody, h]

/-- Witness for C7, with concrete upstream bodies: openWeatherMap passes
287.41 through, weatherUnderground turns 21 Celsius into 294.15, darkSky
turns 14.2 Celsius into 287.35. -/
theorem providers_normalize_witness :
    openWeatherMap.temperature (FetchResult.success 200
      (some (Json.obj [("main", Json.obj [("temp", Json.num 287.41)]),
                       ("name", Json.str "London")]))) =
      Except.ok 287.41 ∧
    weatherUnderground.temperature (FetchResult.success 200
      (some (Json.obj [("current_observation",
                        Json.obj [("temp_c", Json.num 21)])]))) =
      Except.ok (21 + 273.15) ∧
    darkSky.temperature
      (FetchResult.success 200 (some (Json.obj [("results", Json.arr
        [Json.obj [("geometry", Json.obj [("location", Json.obj
          [("lat", Json.num 51.5), ("lng", Json.num (-0.12))])])]])])))
      (FetchResult.success 200 (some (Json.obj [("currently",
        Json.obj [("temperature", Json.num 14.2)])]))) =
      some (Except.ok (14.2 + 273.15)) :=
  ⟨providers_normalize_to_canonical.1 200 _ ⟨⟨287.41⟩⟩ (by rfl),
   providers_normalize_to_canonical.2.1 200 _ ⟨⟨21⟩⟩ (by rfl),
   providers_normalize_to_canonical.2.2 _ 200 _ ⟨⟨14.2⟩⟩ (51.5, -0.12)
     (by rfl) (by rfl)⟩

end GoWeather

namespace GoWeather

/-- C8: the sequential legacy `temperature(city, providers...)` consumes
the providers one at a time in declaration order.  On all-success it
returns the arithmetic mean of the canonical temperatures with no
Fahrenheit conversion; on the first error it returns that error — whatever
the remaining providers (`rest`) would have produced, since they are never
queried. -/
theorem seq_temperature_mean_and_first_error :
    (∀ ts : List ℚ, 0 < ts.length →
        temperature (ts.map Except.ok) =
          Except.ok (ts.sum / (ts.length : ℚ))) ∧
    (∀ (ks : List ℚ) (e : String) (rest : List Outcome),
        temperature (ks.map Except.ok ++ Except.error e :: rest) =
          Except.error e) := by
  constructor
  · intro ts _
    unfold temperature
    rw [collect_map_ok, zero_add, List.length_map]
  · intro ks e rest
    unfold temperature
    rw [collect_append_error]

/-- Witness for C8: mean of 280 and 300 in the canonical unit is 290 (no
conversion), and a first error at position 2 is returned even though a
later provider would succeed. -/
theorem seq_temperature_witness :
    temperature [Except.ok 280, Except.ok 300] = Except.ok 290 ∧
    temperature [Except.ok 280, Except.error "api.wunderground.com: 500",
      Except.ok 999] = Except.error "api.wunderground.com: 500" := by
  constructor
  · have h := seq_temperature_mean_and_first_error.1 [280, 300] (by decide)
    simp only [List.map_cons, List.map_nil] at h
    rw [h]
    norm_num
  · exact seq_temperature_mean_and_first_error.2 [280]
      "api.wunderground.com: 500" [Except.ok 999]

/-- C9: `darkSky.getCoords` reads `g.Results[0]` without checking that the
decoded `Results` list is non-empty: whenever the geocoding response
decodes successfully to an empty `Results` list, the indexing operation
yields nothing (a runtime panic in Go, `none` in this embedding) instead
of an error return. -/
theorem getCoords_empty_results_oob (st : Nat) (body : Option Json)
    (h : decodeBody decodeGeo body = Except.ok ⟨[]⟩) :
    darkSky.getCoords (FetchResult.success st body) = none := by
  simp [darkSky.getCoords, h]

/-- Witness for C9: a well-formed geocoding body whose `results` array is
empty (what the geocoder returns for an unknown city) makes `getCoords`
panic. -/
theorem getCoords_empty_results_oob_witness :
    darkSky.getCoords (FetchResult.success 200
      (some (Json.obj [("results", Json.arr []),
                       ("status", Json.str "ZERO_RESULTS")]))) = none :=
  getCoords_empty_results_oob 200 _ (by rfl)

/-- C10: a response body that is valid JSON but lacks the expected field
is not a decode failure for either single-call provider: the decode
succeeds with the zero value, so openWeatherMap returns temperature 0 with
no error and weatherUnderground returns 0 + 273.15 = 273.15 with no
error. -/
theorem valid_json_missing_fields_zero :
    (∀ (st : Nat) (fields : List (String × Json)),
        jlookup "main" fields = none →
        openWeatherMap.temperature
          (FetchResult.success st (some (Json.obj fields))) =
          Except.ok 0) ∧
    (∀ (st : Nat) (fields : List (String × Json)),
        jlookup "current_observation" fields = none →
        weatherUnderground.temperature
          (FetchResult.success st (some (Json.obj fields))) =
          Except.ok 273.15) := by
  constructor
  · intro st fields h
    simp [openWeatherMap.temperature, decodeBody, decodeOwm, h]
  · intro st fields h
    simp [weatherUnderground.temperature, decodeBody, decodeWu, h]

/-- Witness for C10: bodies holding only unrelated fields decode to the
zero value and the providers succeed with 0 and 273.15. -/
theorem valid_json_missing_fields_zero_witness :
    openWeatherMap.temperature (FetchResult.success 200
      (some (Json.obj [("weather", Json.str "cloudy")]))) = Except.ok 0 ∧
    weatherUnderground.temperature (FetchResult.success 200
      (some (Json.obj [("response", Json.obj [])]))) = Except.ok 273.15 :=
  ⟨valid_json_missing_fields_zero.1 200 [("weather", Json.str "cloudy")]
     (by rfl),
   valid_json_missing_fields_zero.2 200 [("response", Json.obj [])]
     (by rfl)⟩

end GoWeather
